import Mathlib

/-
Shallow embedding of the go-apibox/filter range subsystem.

The Go sources embedded here:
  - the error model (`Error`, `NewError`, `Error.Error`, `appErrorCodes`)
    from the errors file (src/unnamed/part_006);
  - the int64 range filter (`Int64RangeFilter`) from src/range_int64.go:
    the boundary validators `LeftMin`, `RightMax`, the distance validators
    `MinDistance` / `MaxDistance` (which use math/big integers), and `Run`;
  - the uint64 range filter's distance validators from src/range_uint64.go
    (which use plain uint64 arithmetic, wrapping modulo 2^64).

Machine integers are modelled as `Int` (for int64 values, with the
`minInt64 ≤ x ≤ maxInt64` well-formedness bounds carried as hypotheses where
they matter) and as `Nat` reduced modulo `2^64` (for uint64 values).
`math/big` integers are modelled as unbounded `Int`; the Go method
`big.Int.Uint64`, which returns the low 64 bits of the absolute value,
is modelled by `bigUint64`.
-/

namespace GoFilter

/-! ## Error model (src/unnamed/part_006) -/

/-- The ten application error categories, numbered as the Go iota block. -/
def ErrorObjectNotExist : Nat := 0
def ErrorObjectDuplicated : Nat := 1
def ErrorNoObjectUpdated : Nat := 2
def ErrorNoObjectDeleted : Nat := 3
def ErrorMissingParam : Nat := 4
def ErrorInvalidParam : Nat := 5
def ErrorQuotaExceed : Nat := 6
def ErrorPermissionDenied : Nat := 7
def ErrorOperationFailed : Nat := 8
def ErrorInternalError : Nat := 9

/-- The `appErrorCodes` map from the Go errors file; a key outside the map
yields the Go zero value `""`. -/
def appErrorCodes : Nat → String
  | 0 => "ObjectNotExist"
  | 1 => "ObjectDuplicated"
  | 2 => "NoObjectUpdated"
  | 3 => "NoObjectDeleted"
  | 4 => "MissingParam"
  | 5 => "InvalidParam"
  | 6 => "QuotaExceed"
  | 7 => "PermissionDenied"
  | 8 => "OperationFailed"
  | 9 => "InternalError"
  | _ => ""

/-- The Go `Error` struct: a category tag and an ordered field list.
The Go field `Type` is named `Type'` here because `Type` is a Lean
keyword. -/
structure Error where
  Type' : Nat
  Fields : List String
  deriving DecidableEq

/-- `NewError(errorType, fields...)` from the Go errors file. -/
def NewError (errorType : Nat) (fields : List String) : Error :=
  ⟨errorType, fields⟩

/-- `strings.Join(elems, sep)`: concatenate the list elements with the
separator between consecutive elements. -/
def stringsJoin (sep : String) : List String → String
  | [] => ""
  | [a] => a
  | a :: b :: rest => a ++ sep ++ stringsJoin sep (b :: rest)

/-- The Go method `Error.Error()`: it first mutates the receiver by
prepending the category label to `Fields`, then joins the new field list
with `":"`. Modelled state-passing style: the returned pair is the string
produced by the call together with the receiver's state after the call. -/
def Error.Error (e : Error) : String × Error :=
  let fields := appErrorCodes e.Type' :: e.Fields
  (stringsJoin ":" fields, ⟨e.Type', fields⟩)

/-! ## Int64 ranges (src/range_int64.go, go-apibox/types Int64Range) -/

def minInt64 : Int := -(2 ^ 63)
def maxInt64 : Int := 2 ^ 63 - 1

/-- `types.Int64Range`: endpoints with per-side closedness flags. -/
structure Int64Range where
  Left : Int
  Right : Int
  LeftClosed : Bool
  RightClosed : Bool
  deriving DecidableEq

/-- `big.Int.Uint64` (Go math/big): the low 64 bits of the absolute value. -/
def bigUint64 (x : Int) : Nat := x.natAbs % 2 ^ 64

/-- The validator closure registered by `Int64RangeFilter.LeftMin(val)`
(src/range_int64.go lines 55-68): if the range is left-open and
`val > math.MinInt64`, decrement `val`; then fail with `LeftTooSmall`
when `Left < val`. -/
def Int64RangeFilter.LeftMinValidator (val : Int) (paramName : String)
    (paramValue : Int64Range) : Option Error :=
  let val := if !paramValue.LeftClosed then
      (if val > minInt64 then val - 1 else val)
    else val
  if paramValue.Left < val then
    some (NewError ErrorInvalidParam [paramName, "LeftTooSmall"])
  else
    none

/-- The validator closure registered by `Int64RangeFilter.RightMax(val)`
(src/range_int64.go lines 177-190): if the range is right-open and
`val < math.MaxInt64`, increment `val`; then fail with `RightTooLarge`
when `Right > val`. -/
def Int64RangeFilter.RightMaxValidator (val : Int) (paramName : String)
    (paramValue : Int64Range) : Option Error :=
  let val := if !paramValue.RightClosed then
      (if val < maxInt64 then val + 1 else val)
    else val
  if paramValue.Right > val then
    some (NewError ErrorInvalidParam [paramName, "RightTooLarge"])
  else
    none

/-- The validator closure registered by `Int64RangeFilter.MinDistance(val)`
(src/range_int64.go lines 267-296). `dist` is a `big.Int` holding the exact
difference `Right - Left`; every test of `dist` in the Go code goes through
`dist.Uint64()`, modelled by `bigUint64`. The two open-side adjustments run
left first, then right, each guarded by `WrongRange` when the current
`dist.Uint64()` is zero; finally `dist.Uint64() < val` fails with
`TooNear`. -/
def Int64RangeFilter.MinDistanceValidator (val : Nat) (paramName : String)
    (paramValue : Int64Range) : Option Error :=
  let dist0 : Int := paramValue.Right - paramValue.Left
  if !paramValue.LeftClosed && !(bigUint64 dist0 > 0) then
    some (NewError ErrorInvalidParam [paramName, "WrongRange"])
  else
    let dist1 : Int := if !paramValue.LeftClosed then dist0 - 1 else dist0
    if !paramValue.RightClosed && !(bigUint64 dist1 > 0) then
      some (NewError ErrorInvalidParam [paramName, "WrongRange"])
    else
      let dist2 : Int := if !paramValue.RightClosed then dist1 - 1 else dist1
      if bigUint64 dist2 < val then
        some (NewError ErrorInvalidParam [paramName, "TooNear"])
      else
        none

/-- The validator closure registered by `Int64RangeFilter.MaxDistance(val)`
(src/range_int64.go lines 299-328): identical to `MinDistanceValidator`
except the final comparison fails with `TooFar` when
`dist.Uint64() > val`. -/
def Int64RangeFilter.MaxDistanceValidator (val : Nat) (paramName : String)
    (paramValue : Int64Range) : Option Error :=
  let dist0 : Int := paramValue.Right - paramValue.Left
  if !paramValue.LeftClosed && !(bigUint64 dist0 > 0) then
    some (NewError ErrorInvalidParam [paramName, "WrongRange"])
  else
    let dist1 : Int := if !paramValue.LeftClosed then dist0 - 1 else dist0
    if !paramValue.RightClosed && !(bigUint64 dist1 > 0) then
      some (NewError ErrorInvalidParam [paramName, "WrongRange"])
    else
      let dist2 : Int := if !paramValue.RightClosed then dist1 - 1 else dist1
      if bigUint64 dist2 > val then
        some (NewError ErrorInvalidParam [paramName, "TooFar"])
      else
        none

/-! ## Uint64 ranges (src/range_uint64.go, go-apibox/types Uint64Range) -/

/-- `types.Uint64Range`; endpoints are uint64, modelled as `Nat` with
`< 2^64` carried as a hypothesis where it matters. -/
structure Uint64Range where
  Left : Nat
  Right : Nat
  LeftClosed : Bool
  RightClosed : Bool
  deriving DecidableEq

/-- Go uint64 subtraction `a - b`: wraps modulo `2^64`. -/
def sub64 (a b : Nat) : Nat := (a % 2 ^ 64 + (2 ^ 64 - b % 2 ^ 64)) % 2 ^ 64

/-- The validator closure registered by `Uint64RangeFilter.MinDistance(val)`
(src/range_uint64.go lines 266-290): `dist := uint64(Right - Left)` is plain
uint64 arithmetic (wrapping), then left adjustment, right adjustment, and
the `TooNear` comparison, each open-side step guarded by `WrongRange` at
zero. -/
def Uint64RangeFilter.MinDistanceValidator (val : Nat) (paramName : String)
    (paramValue : Uint64Range) : Option Error :=
  let dist0 : Nat := sub64 paramValue.Right paramValue.Left
  if !paramValue.LeftClosed && !(dist0 > 0) then
    some (NewError ErrorInvalidParam [paramName, "WrongRange"])
  else
    let dist1 : Nat := if !paramValue.LeftClosed then dist0 - 1 else dist0
    if !paramValue.RightClosed && !(dist1 > 0) then
      some (NewError ErrorInvalidParam [paramName, "WrongRange"])
    else
      let dist2 : Nat := if !paramValue.RightClosed then dist1 - 1 else dist1
      if dist2 < val then
        some (NewError ErrorInvalidParam [paramName, "TooNear"])
      else
        none

/-- The validator closure registered by `Uint64RangeFilter.MaxDistance(val)`
(src/range_uint64.go lines 293-317): identical to the uint64
`MinDistanceValidator` except the final comparison fails with `TooFar` when
`dist > val`. -/
def Uint64RangeFilter.MaxDistanceValidator (val : Nat) (paramName : String)
    (paramValue : Uint64Range) : Option Error :=
  let dist0 : Nat := sub64 paramValue.Right paramValue.Left
  if !paramValue.LeftClosed && !(dist0 > 0) then
    some (NewError ErrorInvalidParam [paramName, "WrongRange"])
  else
    let dist1 : Nat := if !paramValue.LeftClosed then dist0 - 1 else dist0
    if !paramValue.RightClosed && !(dist1 > 0) then
      some (NewError ErrorInvalidParam [paramName, "WrongRange"])
    else
      let dist2 : Nat := if !paramValue.RightClosed then dist1 - 1 else dist1
      if dist2 > val then
        some (NewError ErrorInvalidParam [paramName, "TooFar"])
      else
        none

/-! ## The Int64 range filter and its Run method (src/range_int64.go) -/

/-- The cutset of `strings.Trim(val, " \t\r\n")`. -/
def trimCutset : List Char := [' ', '\t', '\r', '\n']

/-- `strings.Trim(s, " \t\r\n")`: remove all leading and trailing
characters of the cutset. -/
def trim (s : String) : String :=
  let l := s.toList.dropWhile (· ∈ trimCutset)
  String.mk ((l.reverse.dropWhile (· ∈ trimCutset)).reverse)

/-- `Int64RangeValidator`: a registered validator closure. -/
def Int64RangeValidator : Type :=
  String → Int64Range → Option Error

/-- The `Int64RangeFilter` struct (src/range_int64.go lines 11-16). -/
structure Int64RangeFilter where
  defaultLeftVal : Int
  defaultRightVal : Int
  validators : List Int64RangeValidator
  allowVals : List String

/-- The `interface{}` values `Run` distinguishes: a string, a
`*types.Int64Range`, a `types.Int64Range` value, or any other shape.
The Go `nil` interface value is `Option.none` at `Run`'s call site. -/
inductive Value where
  | str (s : String)
  | int64RangePtr (r : Int64Range)
  | int64RangeVal (r : Int64Range)
  | other
  deriving DecidableEq

/-- The `interface{}` result of a successful `Run`: either the allow-listed
raw string or the coerced `*types.Int64Range`. -/
inductive RunResult where
  | str (s : String)
  | range (r : Int64Range)
  deriving DecidableEq

/-- The validator loop of `Run` (src/range_int64.go lines 358-362): return
the first non-nil error in registration order, or nil when all pass. -/
def Int64RangeFilter.runValidators :
    List Int64RangeValidator → String → Int64Range → Option Error
  | [], _, _ => none
  | v :: vs, paramName, r =>
    match v paramName r with
    | some e => some e
    | none => Int64RangeFilter.runValidators vs paramName r

/-- `Int64RangeFilter.Run` (src/range_int64.go lines 330-368). The call
`types.ParseInt64Range(val, defaultLeft, defaultRight)` lives in the
external go-apibox/types package, so `Run` is parameterized over it
(`parse` returning `none` models a parse error). A Go `nil` paramValue is
`none`; the Go pair `(interface{}, *Error)` is the returned pair of
options. -/
def Int64RangeFilter.Run (parse : String → Int → Int → Option Int64Range)
    (f : Int64RangeFilter) (paramName : String) (paramValue : Option Value) :
    Option RunResult × Option Error :=
  match paramValue with
  | none => (none, none)
  | some (.str s) =>
    let val := trim s
    if f.allowVals.contains val then
      (some (.str val), none)
    else
      match parse val f.defaultLeftVal f.defaultRightVal with
      | none => (none, some (NewError ErrorInvalidParam [paramName, "NotInt64Range"]))
      | some r =>
        match Int64RangeFilter.runValidators f.validators paramName r with
        | some e => (none, some e)
        | none => (some (.range r), none)
  | some (.int64RangePtr r) =>
    match Int64RangeFilter.runValidators f.validators paramName r with
    | some e => (none, some e)
    | none => (some (.range r), none)
  | some (.int64RangeVal r) =>
    match Int64RangeFilter.runValidators f.validators paramName r with
    | some e => (none, some e)
    | none => (some (.range r), none)
  | some .other => (none, some (NewError ErrorInvalidParam [paramName, "NotInt64Range"]))

/-! ## Spec-side definitions (for refinement-style comparison) -/

/-- Modelled from the spec's words for the left-bound normalization: "if
the interval is left-open, decrement `v` by one unit unless `v` already
equals the type's minimum value". To be compared with the adjustment
inside `Int64RangeFilter.LeftMinValidator`. -/
def specAdjustLeft (v : Int) (leftClosed : Bool) : Int :=
  if leftClosed then v
  else if v = minInt64 then v else v - 1

/-! ## Theorems -/

/-- C1: for an int64 `LeftMin(v)` validator and a parsed range `r`, when
`r` is left-open the threshold is first decremented by one unless `v` is
already the int64 minimum (saturating), and the validator returns a
`LeftTooSmall` invalid-param error exactly when `r.Left` is below the
adjusted threshold. In particular, for `v > MinInt64`, a left-open range
with `Left = v - 1` passes and a left-closed range with `Left = v - 1`
fails. -/
theorem C1_leftMin_open_normalization (v : Int) (name : String)
    (r : Int64Range) (hv : minInt64 ≤ v) :
    (Int64RangeFilter.LeftMinValidator v name r =
      if r.Left < specAdjustLeft v r.LeftClosed then
        some (NewError ErrorInvalidParam [name, "LeftTooSmall"])
      else none) ∧
    (minInt64 < v → r.LeftClosed = false → r.Left = v - 1 →
      Int64RangeFilter.LeftMinValidator v name r = none) ∧
    (minInt64 < v → r.LeftClosed = true → r.Left = v - 1 →
      Int64RangeFilter.LeftMinValidator v name r =
        some (NewError ErrorInvalidParam [name, "LeftTooSmall"])) := by
  unfold Int64RangeFilter.LeftMinValidator specAdjustLeft
  refine ⟨?_, ?_, ?_⟩
  · cases hlc : r.LeftClosed with
    | true => simp
    | false =>
      rcases eq_or_lt_of_le hv with h | h
      · simp [← h]
      · simp [h, (ne_of_gt h)]
  · intro hlt hlc hL
    simp [hlc, hL, hlt]
  · intro hlt hlc hL
    simp [hlc, hL]

/-- Witness for C1 at `v = 10`: the left-open range `(9, 20]` passes
`LeftMin(10)` while the left-closed range `[9, 20]` fails it. -/
theorem C1_leftMin_open_normalization_witness :
    Int64RangeFilter.LeftMinValidator 10 "p" ⟨9, 20, false, true⟩ = none ∧
    Int64RangeFilter.LeftMinValidator 10 "p" ⟨9, 20, true, true⟩ =
      some (NewError ErrorInvalidParam ["p", "LeftTooSmall"]) :=
  ⟨(C1_leftMin_open_normalization 10 "p" ⟨9, 20, false, true⟩ (by decide)).2.1
      (by decide) rfl (by decide),
   (C1_leftMin_open_normalization 10 "p" ⟨9, 20, true, true⟩ (by decide)).2.2
      (by decide) rfl (by decide)⟩

/-- C5: an int64 `RightMax(MaxInt64)` validator never adjusts the
threshold on a right-open range (the saturating increment is a no-op at
the type maximum), never overflows, and returns an error exactly when
`Right > MaxInt64` — that is, never: it passes every range whose right
endpoint is a valid int64. -/
theorem C5_rightMax_at_maximum_passes (name : String) (r : Int64Range)
    (h : r.Right ≤ maxInt64) :
    Int64RangeFilter.RightMaxValidator maxInt64 name r = none := by
  unfold Int64RangeFilter.RightMaxValidator
  cases hrc : r.RightClosed <;> simp [hrc] <;> omega

/-- Witness for C5: `RightMax(MaxInt64)` passes the right-open range
`[0, MaxInt64)`. -/
theorem C5_rightMax_at_maximum_passes_witness :
    Int64RangeFilter.RightMaxValidator maxInt64 "p" ⟨0, maxInt64, true, false⟩ = none :=
  C5_rightMax_at_maximum_passes "p" ⟨0, maxInt64, true, false⟩ (by decide)

/-- C9: a nil parameter value always yields `(nil, nil)` from `Run`,
whatever the filter configuration, the parse function and the parameter
name. -/
theorem C9_nil_passes_through (parse : String → Int → Int → Option Int64Range)
    (f : Int64RangeFilter) (paramName : String) :
    f.Run parse paramName none = (none, none) := rfl

/-- C10: `Error.Error()` is not idempotent: each call prepends the
category label to the stored `Fields` list (growing it by one element per
call) before joining with `":"`, mutating the receiver, so a second call
returns the label twice — concretely,
`"InvalidParam:InvalidParam:name:reason"` on the second call for
`NewError(ErrorInvalidParam, "name", "reason")`. -/
theorem C10_error_stringification_mutates (e : Error) :
    ((Error.Error e).2).Fields = appErrorCodes e.Type' :: e.Fields ∧
    ((Error.Error e).2).Fields.length = e.Fields.length + 1 ∧
    (Error.Error ((Error.Error e).2)).1 =
      appErrorCodes e.Type' ++ ":" ++ (Error.Error e).1 ∧
    (Error.Error ((Error.Error e).2)).1 ≠ (Error.Error e).1 ∧
    (Error.Error (NewError ErrorInvalidParam ["name", "reason"])).1 =
      "InvalidParam:name:reason" ∧
    (Error.Error ((Error.Error (NewError ErrorInvalidParam ["name", "reason"])).2)).1 =
      "InvalidParam:InvalidParam:name:reason" := by
  refine ⟨rfl, by simp [Error.Error], rfl, ?_, by decide, by decide⟩
  intro hcontra
  have hlen := congrArg String.length hcontra
  rw [show (Error.Error ((Error.Error e).2)).1 =
      appErrorCodes e.Type' ++ ":" ++ (Error.Error e).1 from rfl] at hlen
  simp [String.length_append] at hlen
  exact absurd hlen.2 (by decide)

/-- C2: the int64 distance validators compute `Right - Left` through
`math/big` integers (arbitrary precision), so for the extreme range
`[MinInt64, MaxInt64]` the width is exactly `2^64 - 1` with no overflow or
wraparound: `MinDistance(val)` passes it for every uint64 `val`, and
`MaxDistance(val)` sees the exact width `2^64 - 1` (failing with `TooFar`
for every smaller `val`). -/
theorem C2_int64_distance_no_overflow (name : String) (val : Nat)
    (hval : val < 2 ^ 64) :
    maxInt64 - minInt64 = 2 ^ 64 - 1 ∧
    bigUint64 (maxInt64 - minInt64) = 2 ^ 64 - 1 ∧
    Int64RangeFilter.MinDistanceValidator val name
      ⟨minInt64, maxInt64, true, true⟩ = none ∧
    (val < 2 ^ 64 - 1 →
      Int64RangeFilter.MaxDistanceValidator val name
        ⟨minInt64, maxInt64, true, true⟩ =
        some (NewError ErrorInvalidParam [name, "TooFar"])) := by
  have h1 : maxInt64 - minInt64 = 2 ^ 64 - 1 := by decide
  have h2 : bigUint64 (maxInt64 - minInt64) = 2 ^ 64 - 1 := by decide
  refine ⟨h1, h2, ?_, ?_⟩
  · unfold Int64RangeFilter.MinDistanceValidator
    simp only [show ((⟨minInt64, maxInt64, true, true⟩ : Int64Range)).Right -
      ((⟨minInt64, maxInt64, true, true⟩ : Int64Range)).Left =
      maxInt64 - minInt64 from rfl, h2]
    simp
    omega
  · intro hlt
    unfold Int64RangeFilter.MaxDistanceValidator
    simp only [show ((⟨minInt64, maxInt64, true, true⟩ : Int64Range)).Right -
      ((⟨minInt64, maxInt64, true, true⟩ : Int64Range)).Left =
      maxInt64 - minInt64 from rfl, h2]
    simp
    omega

/-- Witness for C2 at `val = 0`. -/
theorem C2_int64_distance_no_overflow_witness :
    Int64RangeFilter.MinDistanceValidator 0 "p"
      ⟨minInt64, maxInt64, true, true⟩ = none ∧
    Int64RangeFilter.MaxDistanceValidator 0 "p"
      ⟨minInt64, maxInt64, true, true⟩ =
      some (NewError ErrorInvalidParam ["p", "TooFar"]) :=
  ⟨(C2_int64_distance_no_overflow "p" 0 (by decide)).2.2.1,
   (C2_int64_distance_no_overflow "p" 0 (by decide)).2.2.2 (by decide)⟩

/-- C3: on a range with `Left = Right`, `MinDistance(0)` passes when both
sides are closed and fails with a `WrongRange` invalid-param error (not a
clamped pass) when the left or the right side is open. -/
theorem C3_zero_width_open_guard (name : String) (r : Int64Range)
    (h : r.Left = r.Right) :
    (r.LeftClosed = true → r.RightClosed = true →
      Int64RangeFilter.MinDistanceValidator 0 name r = none) ∧
    (r.LeftClosed = false ∨ r.RightClosed = false →
      Int64RangeFilter.MinDistanceValidator 0 name r =
        some (NewError ErrorInvalidParam [name, "WrongRange"])) := by
  have hd : r.Right - r.Left = 0 := by omega
  constructor
  · intro hlc hrc
    unfold Int64RangeFilter.MinDistanceValidator
    simp [hlc, hrc, hd]
  · intro hopen
    unfold Int64RangeFilter.MinDistanceValidator
    cases hlc : r.LeftClosed with
    | false => simp [hlc, hd, bigUint64]
    | true =>
      have hrc : r.RightClosed = false := by
        rcases hopen with h1 | h1
        · exact absurd hlc (by simp [h1])
        · exact h1
      simp [hlc, hrc, hd, bigUint64]

/-- Witness for C3: `[3, 3]` passes `MinDistance(0)`; `(3, 3]` fails it
with `WrongRange`. -/
theorem C3_zero_width_open_guard_witness :
    Int64RangeFilter.MinDistanceValidator 0 "p" ⟨3, 3, true, true⟩ = none ∧
    Int64RangeFilter.MinDistanceValidator 0 "p" ⟨3, 3, false, true⟩ =
      some (NewError ErrorInvalidParam ["p", "WrongRange"]) :=
  ⟨(C3_zero_width_open_guard "p" ⟨3, 3, true, true⟩ rfl).1 rfl rfl,
   (C3_zero_width_open_guard "p" ⟨3, 3, false, true⟩ rfl).2 (Or.inl rfl)⟩

/-- C4: in all four distance validators the left-open adjustment (with its
zero-width `WrongRange` guard) runs before the right-open adjustment (with
its guard), and both run before the distance comparison: a range of width
1 with both sides open is reduced to width 0 by the left adjustment and
then rejected with `WrongRange` by the right-side guard, for every
configured distance `val`. -/
theorem C4_adjustment_order (name : String) (val : Nat) (r : Int64Range)
    (ru : Uint64Range)
    (h : r.Right - r.Left = 1) (hl : r.LeftClosed = false)
    (hr : r.RightClosed = false)
    (hu : sub64 ru.Right ru.Left = 1) (hul : ru.LeftClosed = false)
    (hur : ru.RightClosed = false) :
    Int64RangeFilter.MinDistanceValidator val name r =
      some (NewError ErrorInvalidParam [name, "WrongRange"]) ∧
    Int64RangeFilter.MaxDistanceValidator val name r =
      some (NewError ErrorInvalidParam [name, "WrongRange"]) ∧
    Uint64RangeFilter.MinDistanceValidator val name ru =
      some (NewError ErrorInvalidParam [name, "WrongRange"]) ∧
    Uint64RangeFilter.MaxDistanceValidator val name ru =
      some (NewError ErrorInvalidParam [name, "WrongRange"]) := by
  refine ⟨?_, ?_, ?_, ?_⟩
  · unfold Int64RangeFilter.MinDistanceValidator
    simp [hl, hr, h, bigUint64]
  · unfold Int64RangeFilter.MaxDistanceValidator
    simp [hl, hr, h, bigUint64]
  · unfold Uint64RangeFilter.MinDistanceValidator
    simp [hul, hur, hu]
  · unfold Uint64RangeFilter.MaxDistanceValidator
    simp [hul, hur, hu]

/-- Witness for C4: the width-1 both-open ranges `(0, 1)` over int64 and
uint64 are rejected with `WrongRange` by all four distance validators at
`val = 0`. -/
theorem C4_adjustment_order_witness :
    Int64RangeFilter.MinDistanceValidator 0 "p" ⟨0, 1, false, false⟩ =
      some (NewError ErrorInvalidParam ["p", "WrongRange"]) ∧
    Int64RangeFilter.MaxDistanceValidator 0 "p" ⟨0, 1, false, false⟩ =
      some (NewError ErrorInvalidParam ["p", "WrongRange"]) ∧
    Uint64RangeFilter.MinDistanceValidator 0 "p" ⟨0, 1, false, false⟩ =
      some (NewError ErrorInvalidParam ["p", "WrongRange"]) ∧
    Uint64RangeFilter.MaxDistanceValidator 0 "p" ⟨0, 1, false, false⟩ =
      some (NewError ErrorInvalidParam ["p", "WrongRange"]) :=
  C4_adjustment_order "p" 0 ⟨0, 1, false, false⟩ ⟨0, 1, false, false⟩
    (by decide) rfl rfl (by decide) rfl rfl

/-- C6 counterexample: ranges with `Left > Right` are not rejected by the
distance validators. The both-closed uint64 range `⟨1, 0⟩` (Left = 1 >
Right = 0) passes `MinDistance(5)` because the width wraps modulo `2^64`,
and the both-closed int64 range `⟨10, 5⟩` passes `MinDistance(5)` because
the comparison sees the low 64 bits of `|Right - Left|`. -/
theorem C6_reversed_range_counterexample :
    Uint64RangeFilter.MinDistanceValidator 5 "p" ⟨1, 0, true, true⟩ = none ∧
    (1 : Nat) > (0 : Nat) ∧
    Int64RangeFilter.MinDistanceValidator 5 "p" ⟨10, 5, true, true⟩ = none ∧
    (10 : Int) > (5 : Int) := by
  refine ⟨by decide, by decide, by decide, by decide⟩

/-- C6 amended: for a range with `Left > Right` the distance validators do
not treat the range as empty. The uint64 domain computes the width as
`Right - Left` wrapped modulo `2^64`, so a both-closed uint64 range with
`Left = Right + 1` passes `MinDistance(val)` for every uint64 `val`; the
int64 domain compares the low 64 bits of `|Right - Left|`, so a
both-closed reversed int64 range passes `MinDistance(val)` whenever that
magnitude is at least `val`. -/
theorem C6_reversed_range_amended (name : String) (val : Nat)
    (hval : val < 2 ^ 64)
    (ru : Uint64Range) (hru : ru.Left = ru.Right + 1)
    (hbound : ru.Left < 2 ^ 64)
    (hulc : ru.LeftClosed = true) (hurc : ru.RightClosed = true)
    (r : Int64Range) (hlt : r.Right < r.Left)
    (hlc : r.LeftClosed = true) (hrc : r.RightClosed = true)
    (hd : val ≤ bigUint64 (r.Right - r.Left)) :
    Uint64RangeFilter.MinDistanceValidator val name ru = none ∧
    Int64RangeFilter.MinDistanceValidator val name r = none := by
  constructor
  · have hdist : sub64 ru.Right ru.Left = 2 ^ 64 - 1 := by
      unfold sub64
      omega
    unfold Uint64RangeFilter.MinDistanceValidator
    simp [hulc, hurc, hdist]
    omega
  · unfold Int64RangeFilter.MinDistanceValidator
    simp [hlc, hrc]
    omega

/-- Witness for C6 amended: `⟨1, 0⟩` over uint64 and `⟨10, 5⟩` over int64,
both closed and reversed, pass `MinDistance(5)`. -/
theorem C6_reversed_range_amended_witness :
    Uint64RangeFilter.MinDistanceValidator 5 "q" ⟨1, 0, true, true⟩ = none ∧
    Int64RangeFilter.MinDistanceValidator 5 "q" ⟨10, 5, true, true⟩ = none :=
  C6_reversed_range_amended "q" 5 (by decide) ⟨1, 0, true, true⟩ rfl
    (by decide) rfl rfl ⟨10, 5, true, true⟩ (by decide) rfl rfl (by decide)

/-- C7: when the trimmed string input equals a configured allow-list
entry, `Run` returns the trimmed string itself with no error, for every
parse function and every validator list: the allow-list check precedes
parsing, so the string need not be valid interval syntax. -/
theorem C7_allowlist_bypasses_parsing
    (parse : String → Int → Int → Option Int64Range)
    (f : Int64RangeFilter) (paramName s : String)
    (h : trim s ∈ f.allowVals) :
    f.Run parse paramName (some (.str s)) = (some (.str (trim s)), none) := by
  unfold Int64RangeFilter.Run
  have hc : f.allowVals.contains (trim s) = true := by
    simpa using h
  simp [hc]
  exact fun hmem => absurd h hmem

/-- Witness for C7: a filter with `Allow("any")` and a parse function that
rejects everything still returns `("any", nil)` on input `" any "`. -/
theorem C7_allowlist_bypasses_parsing_witness :
    Int64RangeFilter.Run (fun _ _ _ => none)
      ⟨0, 0, [], ["any"]⟩ "p" (some (.str " any ")) =
      (some (.str "any"), none) := by
  have h := C7_allowlist_bypasses_parsing (fun _ _ _ => none)
    ⟨0, 0, [], ["any"]⟩ "p" " any " (by decide)
  rw [show trim " any " = "any" from rfl] at h
  exact h

/-- The validator loop returns `nil` when every registered validator
passes. -/
theorem runValidators_all_none (vs : List Int64RangeValidator)
    (name : String) (r : Int64Range)
    (h : ∀ w ∈ vs, w name r = none) :
    Int64RangeFilter.runValidators vs name r = none := by
  induction vs with
  | nil => rfl
  | cons v vs ih =>
    have hv : v name r = none := h v (by simp)
    simp only [Int64RangeFilter.runValidators, hv]
    exact ih (fun w hw => h w (by simp [hw]))

/-- The validator loop returns the error of the first failing validator,
whatever comes after it. -/
theorem runValidators_first_error (vs1 vs2 : List Int64RangeValidator)
    (v : Int64RangeValidator) (name : String) (r : Int64Range) (e : Error)
    (h1 : ∀ w ∈ vs1, w name r = none) (hv : v name r = some e) :
    Int64RangeFilter.runValidators (vs1 ++ v :: vs2) name r = some e := by
  induction vs1 with
  | nil => simp only [List.nil_append, Int64RangeFilter.runValidators, hv]
  | cons w ws ih =>
    have hw : w name r = none := h1 w (by simp)
    simp only [List.cons_append, Int64RangeFilter.runValidators, hw]
    exact ih (fun x hx => h1 x (by simp [hx]))

/-- `Run` never returns a value together with an error: one side of the
pair is always `none`. -/
theorem run_value_or_error (parse : String → Int → Int → Option Int64Range)
    (f : Int64RangeFilter) (name : String) (pv : Option Value) :
    (f.Run parse name pv).1 = none ∨ (f.Run parse name pv).2 = none := by
  cases pv with
  | none => right; rfl
  | some v =>
    cases v with
    | other => left; rfl
    | str s =>
      simp only [Int64RangeFilter.Run]
      split
      · right; rfl
      · split
        · left; rfl
        · split
          · left; rfl
          · right; rfl
    | int64RangePtr r =>
      simp only [Int64RangeFilter.Run]
      split
      · left; rfl
      · right; rfl
    | int64RangeVal r =>
      simp only [Int64RangeFilter.Run]
      split
      · left; rfl
      · right; rfl

/-- C8: validators run in registration order; the first failing one
determines `Run`'s error (later validators are irrelevant); `Run` returns
the typed range only when every validator passes; and `Run` never returns
a value together with an error. -/
theorem C8_validator_chain (parse : String → Int → Int → Option Int64Range)
    (f : Int64RangeFilter) (name : String) (r : Int64Range) :
    (∀ vs1 v vs2 e, f.validators = vs1 ++ v :: vs2 →
        (∀ w ∈ vs1, w name r = none) → v name r = some e →
        f.Run parse name (some (.int64RangePtr r)) = (none, some e)) ∧
    ((∀ w ∈ f.validators, w name r = none) →
      f.Run parse name (some (.int64RangePtr r)) = (some (.range r), none)) ∧
    (∀ pv x er, f.Run parse name pv ≠ (some x, some er)) := by
  refine ⟨?_, ?_, ?_⟩
  · intro vs1 v vs2 e hsplit h1 hv
    have hrv : Int64RangeFilter.runValidators f.validators name r = some e := by
      rw [hsplit]
      exact runValidators_first_error vs1 vs2 v name r e h1 hv
    simp only [Int64RangeFilter.Run, hrv]
  · intro hall
    have hrv : Int64RangeFilter.runValidators f.validators name r = none :=
      runValidators_all_none f.validators name r hall
    simp only [Int64RangeFilter.Run, hrv]
  · intro pv x er hcontra
    rcases run_value_or_error parse f name pv with hside | hside <;>
      rw [hcontra] at hside <;> simp at hside

/-- Witness for C8: with two failing validators registered in order, `Run`
returns the first one's error. -/
theorem C8_validator_chain_witness :
    Int64RangeFilter.Run (fun _ _ _ => none)
      ⟨0, 0, [fun n _ => some (NewError ErrorInvalidParam [n, "A"]),
              fun n _ => some (NewError ErrorInvalidParam [n, "B"])], []⟩
      "p" (some (.int64RangePtr ⟨0, 1, true, true⟩)) =
      (none, some (NewError ErrorInvalidParam ["p", "A"])) :=
  (C8_validator_chain (fun _ _ _ => none)
      ⟨0, 0, [fun n _ => some (NewError ErrorInvalidParam [n, "A"]),
              fun n _ => some (NewError ErrorInvalidParam [n, "B"])], []⟩
      "p" ⟨0, 1, true, true⟩).1
    [] (fun n _ => some (NewError ErrorInvalidParam [n, "A"]))
    [fun n _ => some (NewError ErrorInvalidParam [n, "B"])]
    (NewError ErrorInvalidParam ["p", "A"]) rfl (by simp) rfl

end GoFilter
